import Mathlib

set_option linter.unusedVariables false

/-!
Shallow embedding of the stockfighter-client repository (Go).

The repository holds two source files, each with draft versions of the same
HTTP client.  `src/unnamed/part_000` (first draft, lines 1-385) routes every
endpoint through a generic helper `PerformRequest`; `src/main.go` is an
earlier draft whose endpoint methods call `http.Get` directly and check the
HTTP status code themselves.

The transport and the JSON decoder are the Go standard library, outside the
repository.  One HTTP exchange is modelled by `Exchange α`: either the
transport call returned a non-nil error with a nil response (a connection
error), or it returned a response with a status code whose body the JSON
decoder either decoded into a value of `α`, or failed on, leaving the
caller's target holding whatever had been written before the failure.
Each endpoint method takes the exchange outcome of its single HTTP call as
an explicit argument and is otherwise a direct transcription of the Go.

Go's `nil` pointer / `nil` slice results are modelled by `Option`; a Go
runtime panic (nil-pointer dereference) is the `Outcome.panics` value, kept
distinct from every returned value.  `time.Time` fields are modelled as
opaque `Nat` timestamps; Go `int` as `Int` and `uint64` as `Nat` (no
arithmetic is performed on them anywhere in the source).
-/

namespace StockfighterClient

/-- HTTP method dispatched on by `PerformRequest` (src/unnamed/part_000
lines 165-180): `http.MethodGet`, `http.MethodPost`, `http.MethodDelete`. -/
inductive Method where
  | get
  | post
  | delete
  deriving DecidableEq

/-- Outcome of `json.NewDecoder(resp.Body).Decode(&js)` on a response body:
`decOk v` when decoding succeeded and wrote `v` into the target, `decErr l`
when the decoder returned a non-nil error with the target left holding `l`
(Go's decoder may have partially written the target before failing). -/
inductive DecodeOutcome (α : Type) where
  | decOk (v : α)
  | decErr (leftover : α)

/-- Observable outcome of one HTTP transport exchange.  `connError` is a
transport-level failure: the Go `http.Get` / `http.Post` /
`http.Client.Do` call returned a non-nil error and a nil `*http.Response`
(the connection-error case).  `response code dec` is a completed exchange
with HTTP status `code` whose body decoding gave `dec`. -/
inductive Exchange (α : Type) where
  | connError
  | response (statusCode : Nat) (dec : DecodeOutcome α)

/-- Result of a Go function call that may panic at runtime instead of
returning: `val a` models a normal return of `a`, `panics` models a runtime
panic (here always a nil-pointer dereference). -/
inductive Outcome (α : Type) where
  | panics
  | val (a : α)
  deriving DecidableEq

/-- Result of `PerformRequest` (src/unnamed/part_000 lines 161-193):
returned a non-nil error (`err`), returned nil with the target populated
(`ok v`), or panicked (`panics`). -/
inductive PRResult (α : Type) where
  | panics
  | err
  | ok (v : α)

/-- The outgoing HTTP request an operation issues: URL, method, the
content-type argument when `http.Post` is used, and the request body.
No field carries an API key: the source attaches no authentication
header or parameter to any request. -/
structure OutRequest where
  url : String
  method : Method
  contentType : Option String
  body : Option String
  deriving DecidableEq

/-- Embedded `ok` flag shared by all response structures
(src/unnamed/part_000 lines 64-66). -/
structure HasOk where
  Ok : Bool
  deriving DecidableEq

/-- src/unnamed/part_000 lines 68-71. -/
structure StatusResponse extends HasOk where
  Error : String
  deriving DecidableEq

/-- src/unnamed/part_000 lines 73-76. -/
structure VenueStatusResponse extends HasOk where
  Venue : String
  deriving DecidableEq

/-- src/unnamed/part_000 lines 78-81. -/
structure SymbolInfo where
  Name : String
  Symbol : String
  deriving DecidableEq

/-- src/unnamed/part_000 lines 83-86. -/
structure VenueStocksResponse extends HasOk where
  Symbols : List SymbolInfo
  deriving DecidableEq

/-- src/unnamed/part_000 lines 88-91 (`uint64` as `Nat`). -/
structure Order where
  Price : Nat
  Quantity : Nat
  deriving DecidableEq

/-- src/unnamed/part_000 lines 93-96. -/
structure OrderbookEntry extends Order where
  IsBuy : Bool
  deriving DecidableEq

/-- src/unnamed/part_000 lines 98-104 (`time.Time` as opaque `Nat`). -/
structure OrderbookResponse extends VenueStatusResponse where
  Symbol : String
  Bids : List OrderbookEntry
  Asks : List OrderbookEntry
  Timestamp : Nat
  deriving DecidableEq

/-- src/unnamed/part_000 lines 106-112. -/
structure OrderRequest where
  Account : String
  OrderType : String
  Direction : String
  Qty : Int
  Price : Int
  deriving DecidableEq

/-- src/unnamed/part_000 lines 114-118. -/
structure Fill where
  Qty : Int
  Price : Int
  Timestamp : Nat
  deriving DecidableEq

/-- src/unnamed/part_000 lines 120-132. -/
structure OrderResponse extends VenueStatusResponse, OrderRequest where
  OriginalQty : Int
  Id : Int
  Timestamp : Nat
  Fills : List Fill
  TotalFilled : Int
  Open : Bool
  deriving DecidableEq

/-- src/unnamed/part_000 lines 134-137. -/
structure OrdersStatusResponse extends VenueStatusResponse where
  Orders : List OrderResponse
  deriving DecidableEq

/-- src/unnamed/part_000 lines 139-155. -/
structure QuoteResponse extends VenueStatusResponse where
  Symbol : String
  Bid : Int
  BidSize : Int
  BidDepth : Int
  AskSize : Int
  AskDepth : Int
  Last : Int
  LastSize : Int
  LastTrade : Nat
  QuoteTime : Nat
  deriving DecidableEq

/-- src/unnamed/part_000 lines 157-159: the client holds only the API key. -/
structure Client where
  apiKey : String
  deriving DecidableEq

/-- URL constant, src/unnamed/part_000 line 14. -/
def HEARTBEAT_URL : String := "https://api.stockfighter.io/ob/api/heartbeat"

/-- URL template, src/unnamed/part_000 line 15; the argument fills the one
`%s` slot of `fmt.Sprintf`. -/
def VENUE_HEARTBEAT_URL (s1 : String) : String :=
  "https://api.stockfighter.io/ob/api/venues/" ++ s1 ++ "/heartbeat"

/-- URL template, src/unnamed/part_000 line 17. -/
def VENUE_STOCKS_URL (s1 : String) : String :=
  "https://api.stockfighter.io/ob/api/venues/" ++ s1 ++ "/stocks"

/-- URL template, src/unnamed/part_000 line 18; arguments fill the `%s`
slots in order. -/
def VENUE_ORDERBOOK_URL (s1 s2 : String) : String :=
  "https://api.stockfighter.io/ob/api/venues/" ++ s1 ++ "/stocks/" ++ s2

/-- URL template, src/unnamed/part_000 line 19. -/
def VENUE_QUOTE_URL (s1 s2 : String) : String :=
  "https://api.stockfighter.io/ob/api/venues/" ++ s1 ++ "/stocks/" ++ s2 ++ "/quote"

/-- URL template, src/unnamed/part_000 line 21. -/
def VENUE_ORDERS_URL (s1 s2 : String) : String :=
  "https://api.stockfighter.io/ob/api/venues/" ++ s1 ++ "/stocks/" ++ s2 ++ "/orders"

/-- URL template, src/unnamed/part_000 line 22; the third slot is `%d`. -/
def VENUE_ORDER_URL (s1 s2 : String) (d1 : Int) : String :=
  "https://api.stockfighter.io/ob/api/venues/" ++ s1 ++ "/stocks/" ++ s2
    ++ "/orders/" ++ toString d1

/-- URL template, src/unnamed/part_000 line 24: the first `%s` slot sits in
the `venues/` segment, the second in the `accounts/` segment. -/
def ACCT_EVERY_ORDERS_URL (s1 s2 : String) : String :=
  "https://api.stockfighter.io/ob/api/venues/" ++ s1 ++ "/accounts/" ++ s2 ++ "/orders"

/-- URL template, src/unnamed/part_000 line 25: slots are `venues/%s`,
`accounts/%s`, `stocks/%s` in that order. -/
def ACCT_STOCK_ORDERS_URL (s1 s2 s3 : String) : String :=
  "https://api.stockfighter.io/ob/api/venues/" ++ s1 ++ "/accounts/" ++ s2
    ++ "/stocks/" ++ s3 ++ "/orders"

/-- The result of `PerformRequest` (src/unnamed/part_000 lines 161-193)
given the method and the exchange outcome of its one transport call.

For GET and POST the code runs `resp, err = http.Get(url)` /
`http.Post(url, *body, nil)` and then, when `err != nil`, builds the error
message `"Request failed: %d"` from `resp.StatusCode`; on a connection
error `resp` is nil, so this dereferences a nil pointer and panics.  For
DELETE the error is handled inside the `case` branch (the branch-local
`err` shadows the outer one) and returned before `resp` is touched, so a
connection error returns cleanly.  When the transport call succeeded the
status code is never inspected: the body is decoded and a decoder error is
returned, otherwise nil. -/
def PerformRequest {α : Type} (method : Method) (ex : Exchange α) : PRResult α :=
  match method with
  | .delete =>
    match ex with
    | .connError => .err
    | .response _ (.decOk v) => .ok v
    | .response _ (.decErr _) => .err
  | _ =>
    match ex with
    | .connError => .panics
    | .response _ (.decOk v) => .ok v
    | .response _ (.decErr _) => .err

/-- The outgoing request `PerformRequest` issues (src/unnamed/part_000
lines 165-180): GET is `http.Get(url)`; POST is `http.Post(url, *body,
nil)`, whose second argument is the *content type* and whose third, the
request body, is nil — so the caller's serialized payload is sent as the
content-type header and no body is carried; DELETE is
`http.NewRequest(method, url, nil)`. -/
def PerformRequestOut (url : String) (method : Method) (body : Option String) : OutRequest :=
  match method with
  | .get => { url := url, method := .get, contentType := none, body := none }
  | .post => { url := url, method := .post, contentType := body, body := none }
  | .delete => { url := url, method := .delete, contentType := none, body := none }

/-- src/unnamed/part_000 lines 195-208. -/
def Client.Ping (c : Client) (ex : Exchange StatusResponse) : Outcome Bool :=
  match PerformRequest .get ex with
  | .panics => .panics
  | .err => .val false
  | .ok s => if s.Ok ≠ true then .val false else .val true

/-- Request issued by `Ping`, src/unnamed/part_000 line 197. -/
def Client.PingReq (c : Client) : OutRequest :=
  PerformRequestOut HEARTBEAT_URL .get none

/-- src/unnamed/part_000 lines 210-223.  The echoed `Venue` field of the
decoded `VenueStatusResponse` is never compared with the argument. -/
def Client.PingVenue (c : Client) (venue : String) (ex : Exchange VenueStatusResponse) :
    Outcome Bool :=
  match PerformRequest .get ex with
  | .panics => .panics
  | .err => .val false
  | .ok s => if s.Ok ≠ true then .val false else .val true

/-- Request issued by `PingVenue`, src/unnamed/part_000 line 212. -/
def Client.PingVenueReq (c : Client) (venue : String) : OutRequest :=
  PerformRequestOut (VENUE_HEARTBEAT_URL venue) .get none

/-- src/unnamed/part_000 lines 225-238. -/
def Client.FetchStocks (c : Client) (venue : String) (ex : Exchange VenueStocksResponse) :
    Outcome (Option (List SymbolInfo)) :=
  match PerformRequest .get ex with
  | .panics => .panics
  | .err => .val none
  | .ok s => if s.Ok ≠ true then .val none else .val (some s.Symbols)

/-- Request issued by `FetchStocks`, src/unnamed/part_000 line 227. -/
def Client.FetchStocksReq (c : Client) (venue : String) : OutRequest :=
  PerformRequestOut (VENUE_STOCKS_URL venue) .get none

/-- src/unnamed/part_000 lines 240-257: checks the ok flag, then that the
echoed venue equals the requested one. -/
def Client.FetchOrder (c : Client) (venue stock : String) (id : Int)
    (ex : Exchange OrderResponse) : Outcome (Option OrderResponse) :=
  match PerformRequest .get ex with
  | .panics => .panics
  | .err => .val none
  | .ok s =>
    if s.Ok ≠ true then .val none
    else if s.Venue ≠ venue then .val none
    else .val (some s)

/-- Request issued by `FetchOrder`, src/unnamed/part_000 line 242. -/
def Client.FetchOrderReq (c : Client) (venue stock : String) (id : Int) : OutRequest :=
  PerformRequestOut (VENUE_ORDER_URL venue stock id) .get none

/-- src/unnamed/part_000 lines 259-280: checks the ok flag, the echoed
venue, and the echoed symbol against the requested stock. -/
def Client.FetchOrderbook (c : Client) (venue stock : String)
    (ex : Exchange OrderbookResponse) : Outcome (Option OrderbookResponse) :=
  match PerformRequest .get ex with
  | .panics => .panics
  | .err => .val none
  | .ok s =>
    if s.Ok ≠ true then .val none
    else if s.Venue ≠ venue then .val none
    else if s.Symbol ≠ stock then .val none
    else .val (some s)

/-- Request issued by `FetchOrderbook`, src/unnamed/part_000 line 261. -/
def Client.FetchOrderbookReq (c : Client) (venue stock : String) : OutRequest :=
  PerformRequestOut (VENUE_ORDERBOOK_URL venue stock) .get none

/-- src/unnamed/part_000 lines 282-299.  The source calls
`fmt.Sprintf(ACCT_EVERY_ORDERS_URL, account, venue)`: the account argument
fills the template's first (`venues/`) slot and the venue argument the
second (`accounts/`) slot. -/
def Client.FetchAcctOrders (c : Client) (venue account : String)
    (ex : Exchange OrdersStatusResponse) : Outcome (Option (List OrderResponse)) :=
  match PerformRequest .get ex with
  | .panics => .panics
  | .err => .val none
  | .ok s =>
    if s.Ok ≠ true then .val none
    else if s.Venue ≠ venue then .val none
    else .val (some s.Orders)

/-- Request issued by `FetchAcctOrders`, src/unnamed/part_000 line 284:
`fmt.Sprintf(ACCT_EVERY_ORDERS_URL, account, venue)`. -/
def Client.FetchAcctOrdersReq (c : Client) (venue account : String) : OutRequest :=
  PerformRequestOut (ACCT_EVERY_ORDERS_URL account venue) .get none

/-- src/unnamed/part_000 lines 301-318.  The source calls
`fmt.Sprintf(ACCT_STOCK_ORDERS_URL, account, venue, stock)`. -/
def Client.FetchAcctStockOrders (c : Client) (venue stock account : String)
    (ex : Exchange OrdersStatusResponse) : Outcome (Option (List OrderResponse)) :=
  match PerformRequest .get ex with
  | .panics => .panics
  | .err => .val none
  | .ok s =>
    if s.Ok ≠ true then .val none
    else if s.Venue ≠ venue then .val none
    else .val (some s.Orders)

/-- Request issued by `FetchAcctStockOrders`, src/unnamed/part_000 line
303: `fmt.Sprintf(ACCT_STOCK_ORDERS_URL, account, venue, stock)`. -/
def Client.FetchAcctStockOrdersReq (c : Client) (venue stock account : String) : OutRequest :=
  PerformRequestOut (ACCT_STOCK_ORDERS_URL account venue stock) .get none

/-- Lower-case hex digit of `n < 16`, as Go's JSON encoder writes `\u00XX`
escapes. -/
def hexDigit (n : Nat) : Char :=
  if n < 10 then Char.ofNat (48 + n) else Char.ofNat (87 + n)

/-- Two lower-case hex digits of a byte. -/
def hexByte (n : Nat) : String :=
  String.singleton (hexDigit (n / 16)) ++ String.singleton (hexDigit (n % 16))

/-- Models `encoding/json`'s rendering of a Go string value: double-quoted,
with the quote and backslash escaped, the HTML characters escaped as
`<` / `>` / `&` (the encoder's default), newline, carriage
return and tab as `\n` / `\r` / `\t`, and other control characters as
`\u00XX`. -/
def goJsonString (s : String) : String :=
  "\"" ++ String.join (s.toList.map fun ch =>
    if ch = '"' then "\\\""
    else if ch = '\\' then "\\\\"
    else if ch = '<' then "\\u003c"
    else if ch = '>' then "\\u003e"
    else if ch = '&' then "\\u0026"
    else if ch = '\n' then "\\n"
    else if ch = '\r' then "\\r"
    else if ch = '\t' then "\\t"
    else if ch.toNat < 32 then "\\u00" ++ hexByte ch.toNat
    else String.singleton ch) ++ "\""

/-- Models `json.Marshal` on an `OrderRequest` (src/unnamed/part_000 line
321): the struct's fields in declaration order under their
`json:"..."` tag names.  Marshal cannot fail on this struct (every field
is a string or an int), so no error case is modelled. -/
def marshalOrderRequest (o : OrderRequest) : String :=
  "\x7b\"account\":" ++ goJsonString o.Account
    ++ ",\"orderType\":" ++ goJsonString o.OrderType
    ++ ",\"direction\":" ++ goJsonString o.Direction
    ++ ",\"qty\":" ++ toString o.Qty
    ++ ",\"price\":" ++ toString o.Price ++ "\x7d"

/-- src/unnamed/part_000 lines 320-332: marshals the order, invokes the
pipeline with POST, then executes `return nil` unconditionally — the
pipeline's error and the decoded `OrderResponse` are both discarded, so
every non-panicking run returns nil. -/
def Client.PlaceOrder (c : Client) (venue stock : String) (order : OrderRequest)
    (ex : Exchange OrderResponse) : Outcome (Option OrderResponse) :=
  match PerformRequest .post ex with
  | .panics => .panics
  | _ => .val none

/-- Request issued by `PlaceOrder`, src/unnamed/part_000 lines 321-329:
`PerformRequest(fmt.Sprintf(VENUE_ORDERS_URL, venue, stock),
http.MethodPost, &js, &s)` with `js` the marshalled order. -/
def Client.PlaceOrderReq (c : Client) (venue stock : String) (order : OrderRequest) :
    OutRequest :=
  PerformRequestOut (VENUE_ORDERS_URL venue stock) .post (some (marshalOrderRequest order))

/-- src/unnamed/part_000 lines 334-347.  Only the ok flag is checked; the
echoed `Venue` field is never compared with the argument. -/
def Client.FetchQuote (c : Client) (venue stock : String) (ex : Exchange QuoteResponse) :
    Outcome (Option QuoteResponse) :=
  match PerformRequest .get ex with
  | .panics => .panics
  | .err => .val none
  | .ok s => if s.Ok ≠ true then .val none else .val (some s)

/-- Request issued by `FetchQuote`, src/unnamed/part_000 line 336. -/
def Client.FetchQuoteReq (c : Client) (venue stock : String) : OutRequest :=
  PerformRequestOut (VENUE_QUOTE_URL venue stock) .get none

/-- src/unnamed/part_000 lines 349-366: DELETE through the pipeline, then
the ok flag must be true and the decoded order's `Open` flag must be false,
otherwise false is returned.  No venue or symbol echo-check is made. -/
def Client.CancelOrder (c : Client) (venue stock : String) (id : Int)
    (ex : Exchange OrderResponse) : Outcome Bool :=
  match PerformRequest .delete ex with
  | .panics => .panics
  | .err => .val false
  | .ok s =>
    if s.Ok ≠ true then .val false
    else if s.Open ≠ false then .val false
    else .val true

/-- Request issued by `CancelOrder`, src/unnamed/part_000 line 351. -/
def Client.CancelOrderReq (c : Client) (venue stock : String) (id : Int) : OutRequest :=
  PerformRequestOut (VENUE_ORDER_URL venue stock id) .delete none

/-!
The `src/main.go` draft.  Its endpoint methods call `http.Get` directly:
on a non-nil error they return their failure value before touching the
response, then they reject any response whose `StatusCode` is not 200,
then decode.  Its response structures differ from the pipeline draft's
(`Symbol` instead of `SymbolInfo`; its `OrderResponse` is an orderbook
snapshot embedding `HasOk` and `Symbol`).
-/

namespace MainGo

/-- src/main.go lines 50-53. -/
structure StocksResponse extends HasOk where
  Symbols : List SymbolInfo
  deriving DecidableEq

/-- src/main.go lines 73-76 (the draft names it `OrderbookOrder`). -/
structure OrderbookOrder extends Order where
  IsBuy : Bool
  deriving DecidableEq

/-- src/main.go lines 65-71: this draft's `OrderResponse` is an orderbook
snapshot embedding `HasOk` and the `Symbol` record (modelled by
`SymbolInfo`, the same two-field shape). -/
structure OrderResponse extends HasOk, SymbolInfo where
  Bids : List OrderbookOrder
  Asks : List OrderbookOrder
  Timestamp : Nat
  deriving DecidableEq

/-- src/main.go lines 108-131: transport error gives false; a status code
other than 200 gives false; the decoder's error is assigned but never
checked, so the target is consulted even after a decode failure; the
decoded ok flag must be true. -/
def Heartbeat (c : Client) (ex : Exchange StatusResponse) : Bool :=
  match ex with
  | .connError => false
  | .response code dec =>
    if code ≠ 200 then false
    else
      let s := match dec with | .decOk v => v | .decErr l => l
      if s.Ok ≠ true then false else true

/-- src/main.go lines 133-154: same shape as `Heartbeat` (this draft
decodes a plain `StatusResponse` for the venue heartbeat too). -/
def VenueHeartbeat (c : Client) (venue : String) (ex : Exchange StatusResponse) : Bool :=
  match ex with
  | .connError => false
  | .response code dec =>
    if code ≠ 200 then false
    else
      let s := match dec with | .decOk v => v | .decErr l => l
      if s.Ok ≠ true then false else true

/-- src/main.go lines 156-177: transport error or non-200 status gives
nil; a decode error gives nil; otherwise the symbol list is returned with
no check of the decoded ok flag. -/
def VenueStocks (c : Client) (venue : String) (ex : Exchange StocksResponse) :
    Option (List SymbolInfo) :=
  match ex with
  | .connError => none
  | .response code dec =>
    if code ≠ 200 then none
    else
      match dec with
      | .decErr _ => none
      | .decOk stocks => some stocks.Symbols

/-- src/main.go lines 179-200: transport error or non-200 status (checked
twice in the source) gives nil; then the decoded structure is returned
unconditionally — neither the decoder's error nor the ok flag is
consulted, so the pointer returned is never nil once the status check
passes. -/
def VenueOrders (c : Client) (venue stock : String) (ex : Exchange OrderResponse) :
    Option OrderResponse :=
  match ex with
  | .connError => none
  | .response code dec =>
    if code ≠ 200 then none
    else if code ≠ 200 then none
    else
      let orders := match dec with | .decOk v => v | .decErr l => l
      some orders

end MainGo

/-!
Theorems.  Claims C1-C10 of the specification, settled against the
embedding above.
-/

/-- Claim C1 evaluated on the code: on a transport connection error
(`Exchange.connError`: the Go transport call returned a non-nil error and a
nil response) every GET- or POST-based operation panics with a nil-pointer
dereference — `PerformRequest` builds its error message from
`resp.StatusCode` with `resp` nil — instead of returning its empty/failure
value.  Only `CancelOrder` (DELETE, whose branch handles the error before
touching the response) returns its failure value cleanly. -/
theorem C1_connection_error_panics :
    (Client.mk "key").Ping .connError = .panics
  ∧ (Client.mk "key").PingVenue "TESTEX" .connError = .panics
  ∧ (Client.mk "key").FetchStocks "TESTEX" .connError = .panics
  ∧ (Client.mk "key").FetchOrder "TESTEX" "FOOBAR" 123 .connError = .panics
  ∧ (Client.mk "key").FetchOrderbook "TESTEX" "FOOBAR" .connError = .panics
  ∧ (Client.mk "key").FetchQuote "TESTEX" "FOOBAR" .connError = .panics
  ∧ (Client.mk "key").FetchAcctOrders "TESTEX" "ACT123" .connError = .panics
  ∧ (Client.mk "key").FetchAcctStockOrders "TESTEX" "FOOBAR" "ACT123" .connError = .panics
  ∧ (Client.mk "key").PlaceOrder "TESTEX" "FOOBAR"
      (OrderRequest.mk "ACT123" "limit" "buy" 100 5000) .connError = .panics
  ∧ (Client.mk "key").CancelOrder "TESTEX" "FOOBAR" 123 .connError = .val false :=
  ⟨rfl, rfl, rfl, rfl, rfl, rfl, rfl, rfl, rfl, rfl⟩

/-- Claim C2 is false as stated: `PingVenue` against a decoded response
with ok true and echoed venue "OTHER" ≠ requested "TESTEX" returns true,
and `FetchQuote` under the same venue mismatch returns a non-nil quote —
neither compares the echoed venue with the request. -/
theorem C2_counterexample :
    (Client.mk "key").PingVenue "TESTEX"
      (.response 200 (.decOk ⟨⟨true⟩, "OTHER"⟩)) = .val true
  ∧ (Client.mk "key").FetchQuote "TESTEX" "FOOBAR"
      (.response 200 (.decOk ⟨⟨⟨true⟩, "OTHER"⟩, "FOOBAR", 1, 1, 1, 1, 1, 1, 1, 0, 0⟩))
      = .val (some ⟨⟨⟨true⟩, "OTHER"⟩, "FOOBAR", 1, 1, 1, 1, 1, 1, 1, 0, 0⟩) :=
  ⟨rfl, rfl⟩

/-- Claim C2 amended: of the venue-scoped fetches, `FetchOrder`,
`FetchOrderbook`, `FetchAcctOrders` and `FetchAcctStockOrders` return
their failure value whenever the decoded venue differs from the requested
one, but `PingVenue` and `FetchQuote` perform no venue echo-check and
report success whenever the decoded ok flag is true. -/
theorem C2_amended_venue_echo_check (c : Client) (venue stock account : String)
    (id : Int) (code : Nat) (o : OrderResponse) (ob : OrderbookResponse)
    (os : OrdersStatusResponse) (v : VenueStatusResponse) (q : QuoteResponse)
    (ho : o.Venue ≠ venue) (hob : ob.Venue ≠ venue) (hos : os.Venue ≠ venue)
    (hv : v.Ok = true) (hq : q.Ok = true) :
    c.FetchOrder venue stock id (.response code (.decOk o)) = .val none
  ∧ c.FetchOrderbook venue stock (.response code (.decOk ob)) = .val none
  ∧ c.FetchAcctOrders venue account (.response code (.decOk os)) = .val none
  ∧ c.FetchAcctStockOrders venue stock account (.response code (.decOk os)) = .val none
  ∧ c.PingVenue venue (.response code (.decOk v)) = .val true
  ∧ c.FetchQuote venue stock (.response code (.decOk q)) = .val (some q) := by
  refine ⟨?_, ?_, ?_, ?_, ?_, ?_⟩
  · by_cases h : o.Ok = true <;> simp [Client.FetchOrder, PerformRequest, h, ho]
  · by_cases h : ob.Ok = true <;> simp [Client.FetchOrderbook, PerformRequest, h, hob]
  · by_cases h : os.Ok = true <;> simp [Client.FetchAcctOrders, PerformRequest, h, hos]
  · by_cases h : os.Ok = true <;> simp [Client.FetchAcctStockOrders, PerformRequest, h, hos]
  · simp [Client.PingVenue, PerformRequest, hv]
  · simp [Client.FetchQuote, PerformRequest, hq]

/-- Claim C2 amended, at a concrete input: `FetchOrder` against a decoded
ok-true order echoing venue "OTHER" when "TESTEX" was requested returns
nil. -/
theorem C2_amended_venue_echo_check_witness :
    (Client.mk "key").FetchOrder "TESTEX" "FOOBAR" 123
      (.response 200 (.decOk ⟨⟨⟨true⟩, "OTHER"⟩, ⟨"ACT123", "limit", "buy", 100, 5000⟩,
        100, 123, 0, [], 0, false⟩)) = .val none :=
  (C2_amended_venue_echo_check (Client.mk "key") "TESTEX" "FOOBAR" "ACT123" 123 200
    ⟨⟨⟨true⟩, "OTHER"⟩, ⟨"ACT123", "limit", "buy", 100, 5000⟩, 100, 123, 0, [], 0, false⟩
    ⟨⟨⟨true⟩, "OTHER"⟩, "FOOBAR", [], [], 0⟩
    ⟨⟨⟨true⟩, "OTHER"⟩, []⟩
    ⟨⟨true⟩, "TESTEX"⟩
    ⟨⟨⟨true⟩, "TESTEX"⟩, "FOOBAR", 1, 1, 1, 1, 1, 1, 1, 0, 0⟩
    (by decide) (by decide) (by decide) rfl rfl).1

/-- Claim C3 is false as stated: the main.go draft's `VenueOrders` decodes
a structure carrying the ok flag, yet against a decoded response with ok
false it returns that structure (a non-nil pointer), not its failure
value. -/
theorem C3_counterexample :
    MainGo.VenueOrders (Client.mk "key") "TESTEX" "FOOBAR"
      (.response 200 (.decOk ⟨⟨false⟩, ⟨"American Tea", "FOOBAR"⟩, [], [], 0⟩))
      = some ⟨⟨false⟩, ⟨"American Tea", "FOOBAR"⟩, [], [], 0⟩ := rfl

/-- Claim C3 amended: every operation that decodes a response carrying a
success flag returns its failure value when the decoded flag is false —
in particular `Ping` against a body decoding to ok false with error
"down" returns false — except the main.go draft's `VenueOrders` (and
`VenueStocks`), which return decoded data without consulting the flag. -/
theorem C3_amended_ok_flag_check (c : Client) (venue stock account : String)
    (id : Int) (code : Nat) (s : StatusResponse) (v : VenueStatusResponse)
    (vs : VenueStocksResponse) (o : OrderResponse) (ob : OrderbookResponse)
    (os : OrdersStatusResponse) (q : QuoteResponse) (ms : StatusResponse)
    (hs : s.Ok = false) (hv : v.Ok = false) (hvs : vs.Ok = false)
    (ho : o.Ok = false) (hob : ob.Ok = false) (hos : os.Ok = false)
    (hq : q.Ok = false) (hms : ms.Ok = false) :
    c.Ping (.response code (.decOk s)) = .val false
  ∧ c.PingVenue venue (.response code (.decOk v)) = .val false
  ∧ c.FetchStocks venue (.response code (.decOk vs)) = .val none
  ∧ c.FetchOrder venue stock id (.response code (.decOk o)) = .val none
  ∧ c.FetchOrderbook venue stock (.response code (.decOk ob)) = .val none
  ∧ c.FetchAcctOrders venue account (.response code (.decOk os)) = .val none
  ∧ c.FetchAcctStockOrders venue stock account (.response code (.decOk os)) = .val none
  ∧ c.FetchQuote venue stock (.response code (.decOk q)) = .val none
  ∧ c.CancelOrder venue stock id (.response code (.decOk o)) = .val false
  ∧ MainGo.Heartbeat c (.response code (.decOk ms)) = false
  ∧ MainGo.VenueHeartbeat c venue (.response code (.decOk ms)) = false := by
  refine ⟨?_, ?_, ?_, ?_, ?_, ?_, ?_, ?_, ?_, ?_, ?_⟩
  · simp [Client.Ping, PerformRequest, hs]
  · simp [Client.PingVenue, PerformRequest, hv]
  · simp [Client.FetchStocks, PerformRequest, hvs]
  · simp [Client.FetchOrder, PerformRequest, ho]
  · simp [Client.FetchOrderbook, PerformRequest, hob]
  · simp [Client.FetchAcctOrders, PerformRequest, hos]
  · simp [Client.FetchAcctStockOrders, PerformRequest, hos]
  · simp [Client.FetchQuote, PerformRequest, hq]
  · simp [Client.CancelOrder, PerformRequest, ho]
  · simp [MainGo.Heartbeat, hms]
  · simp [MainGo.VenueHeartbeat, hms]

/-- Claim C3 amended, at a concrete input: `Ping` against a response
decoding to ok false with error message "down" (the body
{"ok":false,"error":"down"}) returns false despite the successful
transport round-trip. -/
theorem C3_amended_ok_flag_check_witness :
    (Client.mk "key").Ping (.response 200 (.decOk ⟨⟨false⟩, "down"⟩)) = .val false :=
  (C3_amended_ok_flag_check (Client.mk "key") "TESTEX" "FOOBAR" "ACT123" 123 200
    ⟨⟨false⟩, "down"⟩ ⟨⟨false⟩, "TESTEX"⟩ ⟨⟨false⟩, []⟩
    ⟨⟨⟨false⟩, "TESTEX"⟩, ⟨"ACT123", "limit", "buy", 100, 5000⟩, 100, 123, 0, [], 0, false⟩
    ⟨⟨⟨false⟩, "TESTEX"⟩, "FOOBAR", [], [], 0⟩
    ⟨⟨⟨false⟩, "TESTEX"⟩, []⟩
    ⟨⟨⟨false⟩, "TESTEX"⟩, "FOOBAR", 1, 1, 1, 1, 1, 1, 1, 0, 0⟩
    ⟨⟨false⟩, "down"⟩
    rfl rfl rfl rfl rfl rfl rfl rfl).1

/-- Claim C4: `CancelOrder` returns true exactly when the transport call
completed, the body decoded, the decoded ok flag is true, and the decoded
order's `Open` flag is false; in particular it returns true against a
decoded ok-true, open-false order and false against the same order with
open true. -/
theorem C4_cancel_order_iff :
    (∀ (c : Client) (venue stock : String) (id : Int) (ex : Exchange OrderResponse),
      c.CancelOrder venue stock id ex = .val true
        ↔ ∃ code s, ex = .response code (.decOk s) ∧ s.Ok = true ∧ s.Open = false)
  ∧ (Client.mk "key").CancelOrder "TESTEX" "FOOBAR" 123
      (.response 200 (.decOk ⟨⟨⟨true⟩, "TESTEX"⟩, ⟨"ACT123", "limit", "buy", 100, 5000⟩,
        100, 123, 0, [], 0, false⟩)) = .val true
  ∧ (Client.mk "key").CancelOrder "TESTEX" "FOOBAR" 123
      (.response 200 (.decOk ⟨⟨⟨true⟩, "TESTEX"⟩, ⟨"ACT123", "limit", "buy", 100, 5000⟩,
        100, 123, 0, [], 0, true⟩)) = .val false := by
  refine ⟨?_, rfl, rfl⟩
  intro c venue stock id ex
  constructor
  · intro h
    rcases ex with _ | ⟨code, dec⟩
    · simp [Client.CancelOrder, PerformRequest] at h
    · rcases dec with s | l
      · by_cases h1 : s.Ok = true
        · by_cases h2 : s.Open = false
          · exact ⟨code, s, rfl, h1, h2⟩
          · simp [Client.CancelOrder, PerformRequest, h1, h2] at h
        · simp [Client.CancelOrder, PerformRequest, h1] at h
      · simp [Client.CancelOrder, PerformRequest] at h
  · rintro ⟨code, s, rfl, hok, hopen⟩
    simp [Client.CancelOrder, PerformRequest, hok, hopen]

/-- Claim C5: `FetchOrderbook` returns a non-nil orderbook only when the
decoded symbol equals the requested stock, and a decoded symbol mismatch
always yields nil. -/
theorem C5_orderbook_symbol_check :
    (∀ (c : Client) (venue stock : String) (ex : Exchange OrderbookResponse)
      (r : OrderbookResponse),
      c.FetchOrderbook venue stock ex = .val (some r) → r.Symbol = stock)
  ∧ (∀ (c : Client) (venue stock : String) (code : Nat) (ob : OrderbookResponse),
      ob.Symbol ≠ stock →
      c.FetchOrderbook venue stock (.response code (.decOk ob)) = .val none) := by
  constructor
  · intro c venue stock ex r h
    rcases ex with _ | ⟨code, dec⟩
    · simp [Client.FetchOrderbook, PerformRequest] at h
    · rcases dec with s | l
      · by_cases h1 : s.Ok = true
        · by_cases h2 : s.Venue = venue
          · by_cases h3 : s.Symbol = stock
            · simp [Client.FetchOrderbook, PerformRequest, h1, h2, h3] at h
              exact h ▸ h3
            · simp [Client.FetchOrderbook, PerformRequest, h1, h2, h3] at h
          · simp [Client.FetchOrderbook, PerformRequest, h1, h2] at h
        · simp [Client.FetchOrderbook, PerformRequest, h1] at h
      · simp [Client.FetchOrderbook, PerformRequest] at h
  · intro c venue stock code ob hsym
    by_cases h1 : ob.Ok = true
    · by_cases h2 : ob.Venue = venue
        <;> simp [Client.FetchOrderbook, PerformRequest, h1, h2, hsym]
    · simp [Client.FetchOrderbook, PerformRequest, h1]

/-- Claim C6 is false as stated: `Ping` against an HTTP 500 response whose
body decodes to ok true returns true — `PerformRequest` never inspects the
status code of a completed exchange. -/
theorem C6_counterexample :
    (Client.mk "key").Ping (.response 500 (.decOk ⟨⟨true⟩, ""⟩)) = .val true := rfl

/-- Claim C6 amended: only the main.go draft's operations (`Heartbeat`,
`VenueHeartbeat`, `VenueStocks`, `VenueOrders`) treat a non-200 status as
a failure regardless of the body; the operations routed through
`PerformRequest` never inspect the status code — the pipeline's result is
identical for any two status codes. -/
theorem C6_amended_status_code (c : Client) (venue stock : String) (code : Nat)
    (dec : DecodeOutcome StatusResponse) (decS : DecodeOutcome MainGo.StocksResponse)
    (decO : DecodeOutcome MainGo.OrderResponse) (hc : code ≠ 200) :
    MainGo.Heartbeat c (.response code dec) = false
  ∧ MainGo.VenueHeartbeat c venue (.response code dec) = false
  ∧ MainGo.VenueStocks c venue (.response code decS) = none
  ∧ MainGo.VenueOrders c venue stock (.response code decO) = none
  ∧ (∀ (α : Type) (m : Method) (code2 : Nat) (d : DecodeOutcome α),
      PerformRequest m (.response code d) = PerformRequest m (.response code2 d)) := by
  refine ⟨?_, ?_, ?_, ?_, ?_⟩
  · simp [MainGo.Heartbeat, hc]
  · simp [MainGo.VenueHeartbeat, hc]
  · simp [MainGo.VenueStocks, hc]
  · simp [MainGo.VenueOrders, hc]
  · intro α m code2 d
    cases m <;> cases d <;> rfl

/-- Claim C6 amended, at a concrete input: the main.go `Heartbeat` against
an HTTP 500 response whose body decodes to ok true returns false. -/
theorem C6_amended_status_code_witness :
    MainGo.Heartbeat (Client.mk "key") (.response 500 (.decOk ⟨⟨true⟩, ""⟩)) = false :=
  (C6_amended_status_code (Client.mk "key") "TESTEX" "FOOBAR" 500
    (.decOk ⟨⟨true⟩, ""⟩) (.decOk ⟨⟨true⟩, []⟩)
    (.decOk ⟨⟨true⟩, ⟨"American Tea", "FOOBAR"⟩, [], [], 0⟩) (by decide)).1

/-- Claim C7 evaluated on the code: `PlaceOrder` does marshal the
`OrderRequest` to JSON, but the serialized payload is passed as the
content-type argument of `http.Post` while the request body is nil, and
the method executes `return nil` unconditionally — so even a successful
exchange whose body decodes to an ok-true order yields nil instead of the
decoded `OrderResponse`. -/
theorem C7_place_order_eval :
    ((Client.mk "key").PlaceOrderReq "TESTEX" "FOOBAR"
        (OrderRequest.mk "ACT123" "limit" "buy" 100 5000)).contentType
      = some "\x7b\"account\":\"ACT123\",\"orderType\":\"limit\",\"direction\":\"buy\",\"qty\":100,\"price\":5000\x7d"
  ∧ ((Client.mk "key").PlaceOrderReq "TESTEX" "FOOBAR"
        (OrderRequest.mk "ACT123" "limit" "buy" 100 5000)).body = none
  ∧ (Client.mk "key").PlaceOrder "TESTEX" "FOOBAR"
      (OrderRequest.mk "ACT123" "limit" "buy" 100 5000)
      (.response 200 (.decOk ⟨⟨⟨true⟩, "TESTEX"⟩, ⟨"ACT123", "limit", "buy", 100, 5000⟩,
        100, 123, 0, [], 0, true⟩)) = .val none := by
  refine ⟨?_, rfl, rfl⟩
  decide

/-- Claim C8 evaluated on the code: `FetchAcctOrders("TESTEX","ACT123")`
formats its URL with the account in the `venues/` slot and the venue in
the `accounts/` slot (the source passes `account, venue` to the template),
and `FetchAcctStockOrders("TESTEX","FOOBAR","ACT123")` does the same;
the resulting URL differs from the one the template yields with the venue
in the `venues/` slot. -/
theorem C8_acct_orders_url_swapped :
    ((Client.mk "key").FetchAcctOrdersReq "TESTEX" "ACT123").url
      = "https://api.stockfighter.io/ob/api/venues/ACT123/accounts/TESTEX/orders"
  ∧ ((Client.mk "key").FetchAcctStockOrdersReq "TESTEX" "FOOBAR" "ACT123").url
      = "https://api.stockfighter.io/ob/api/venues/ACT123/accounts/TESTEX/stocks/FOOBAR/orders"
  ∧ ((Client.mk "key").FetchAcctOrdersReq "TESTEX" "ACT123").url
      ≠ ACCT_EVERY_ORDERS_URL "TESTEX" "ACT123" := by
  refine ⟨rfl, rfl, ?_⟩
  decide

/-- Claim C9: the stored API key influences nothing — for any two clients
whose keys differ, every operation issues the identical outgoing request
(the `OutRequest` model carries exactly the fields the source attaches:
URL, method, content type, body; no authentication field exists) and,
given the same exchange outcome, returns the identical result. -/
theorem C9_api_key_never_used (k1 k2 : String) :
    ((Client.mk k1).PingReq = (Client.mk k2).PingReq)
  ∧ (∀ venue, (Client.mk k1).PingVenueReq venue = (Client.mk k2).PingVenueReq venue)
  ∧ (∀ venue, (Client.mk k1).FetchStocksReq venue = (Client.mk k2).FetchStocksReq venue)
  ∧ (∀ venue stock id, (Client.mk k1).FetchOrderReq venue stock id
      = (Client.mk k2).FetchOrderReq venue stock id)
  ∧ (∀ venue stock, (Client.mk k1).FetchOrderbookReq venue stock
      = (Client.mk k2).FetchOrderbookReq venue stock)
  ∧ (∀ venue stock, (Client.mk k1).FetchQuoteReq venue stock
      = (Client.mk k2).FetchQuoteReq venue stock)
  ∧ (∀ venue account, (Client.mk k1).FetchAcctOrdersReq venue account
      = (Client.mk k2).FetchAcctOrdersReq venue account)
  ∧ (∀ venue stock account, (Client.mk k1).FetchAcctStockOrdersReq venue stock account
      = (Client.mk k2).FetchAcctStockOrdersReq venue stock account)
  ∧ (∀ venue stock order, (Client.mk k1).PlaceOrderReq venue stock order
      = (Client.mk k2).PlaceOrderReq venue stock order)
  ∧ (∀ venue stock id, (Client.mk k1).CancelOrderReq venue stock id
      = (Client.mk k2).CancelOrderReq venue stock id)
  ∧ (∀ ex, (Client.mk k1).Ping ex = (Client.mk k2).Ping ex)
  ∧ (∀ venue ex, (Client.mk k1).PingVenue venue ex = (Client.mk k2).PingVenue venue ex)
  ∧ (∀ venue ex, (Client.mk k1).FetchStocks venue ex = (Client.mk k2).FetchStocks venue ex)
  ∧ (∀ venue stock id ex, (Client.mk k1).FetchOrder venue stock id ex
      = (Client.mk k2).FetchOrder venue stock id ex)
  ∧ (∀ venue stock ex, (Client.mk k1).FetchOrderbook venue stock ex
      = (Client.mk k2).FetchOrderbook venue stock ex)
  ∧ (∀ venue stock ex, (Client.mk k1).FetchQuote venue stock ex
      = (Client.mk k2).FetchQuote venue stock ex)
  ∧ (∀ venue account ex, (Client.mk k1).FetchAcctOrders venue account ex
      = (Client.mk k2).FetchAcctOrders venue account ex)
  ∧ (∀ venue stock account ex, (Client.mk k1).FetchAcctStockOrders venue stock account ex
      = (Client.mk k2).FetchAcctStockOrders venue stock account ex)
  ∧ (∀ venue stock order ex, (Client.mk k1).PlaceOrder venue stock order ex
      = (Client.mk k2).PlaceOrder venue stock order ex)
  ∧ (∀ venue stock id ex, (Client.mk k1).CancelOrder venue stock id ex
      = (Client.mk k2).CancelOrder venue stock id ex) :=
  ⟨rfl, fun _ => rfl, fun _ => rfl, fun _ _ _ => rfl, fun _ _ => rfl, fun _ _ => rfl,
   fun _ _ => rfl, fun _ _ _ => rfl, fun _ _ _ => rfl, fun _ _ _ => rfl,
   fun _ => rfl, fun _ _ => rfl, fun _ _ => rfl, fun _ _ _ _ => rfl, fun _ _ _ => rfl,
   fun _ _ _ => rfl, fun _ _ _ => rfl, fun _ _ _ _ => rfl, fun _ _ _ _ => rfl,
   fun _ _ _ _ => rfl⟩

/-- Claim C10: `CancelOrder` performs no venue echo-validation — whenever
the exchange completed, the decoded ok flag is true and the decoded
`Open` flag is false, it returns true even though the echoed venue differs
from the requested one. -/
theorem C10_cancel_no_venue_validation (c : Client) (venue stock : String)
    (id : Int) (code : Nat) (s : OrderResponse)
    (hok : s.Ok = true) (hopen : s.Open = false) (hvenue : s.Venue ≠ venue) :
    c.CancelOrder venue stock id (.response code (.decOk s)) = .val true := by
  simp [Client.CancelOrder, PerformRequest, hok, hopen]

/-- Claim C10 at a concrete input: cancelling on venue "TESTEX" while the
response echoes venue "OTHER" still returns true when ok is true and open
is false. -/
theorem C10_cancel_no_venue_validation_witness :
    (Client.mk "key").CancelOrder "TESTEX" "FOOBAR" 123
      (.response 200 (.decOk ⟨⟨⟨true⟩, "OTHER"⟩, ⟨"ACT123", "limit", "buy", 100, 5000⟩,
        100, 123, 0, [], 0, false⟩)) = .val true :=
  C10_cancel_no_venue_validation (Client.mk "key") "TESTEX" "FOOBAR" 123 200
    ⟨⟨⟨true⟩, "OTHER"⟩, ⟨"ACT123", "limit", "buy", 100, 5000⟩, 100, 123, 0, [], 0, false⟩
    rfl rfl (by decide)

end StockfighterClient
